import Mathlib

/-!
Shallow embedding of the Privileged Command Execution Engine of
`src/core/command_executor.py` (classes `CommandSecurity`,
`ThreadSafePasswordManager`, `FixedCommandExecutor`,
`SafeCommandExecutionThread`), together with theorems settling the
frozen claims about it.

Modelling conventions:
* Python strings are Lean `String`s; character-level work happens on
  `List Char` via `String.data`.
* `time.time()` values are `Nat` (wall-clock instants); Python's float
  subtraction `now - last` compared with `< 30` coincides with Nat
  truncated subtraction for the monotone clocks that occur here.
* External effects (the pacman lock file, the `sudo -n true` probe, the
  interactive password dialog, process spawning and the child's
  behaviour) are inputs supplied through explicit environment records.
* Ghost fields (`spawned`, `reachedSpawnPhase`, a `prompted` flag)
  record which effects a run performed; the code paths that perform no
  such effect set them to `false`.
-/

namespace ArchAppCenter

/-- Python `\s` for the ASCII range: the whitespace class used by
`str.strip`, `str.split` and the `re` patterns of the validator. -/
def isPySpace (c : Char) : Bool :=
  c = ' ' || c = '\t' || c = '\n' || c = '\r' || c = '\x0b' || c = '\x0c'

/-- Python `str.strip()` on a character list. -/
def pyStripL (s : List Char) : List Char :=
  ((s.dropWhile isPySpace).reverse.dropWhile isPySpace).reverse

/-- Python `str.strip()`. -/
def pyStrip (s : String) : String := ⟨pyStripL s.data⟩

/-- Python `str.lower()` (the commands handled here are ASCII). -/
def pyLower (s : String) : String := ⟨s.data.map Char.toLower⟩

/-- Does `needle` occur as a contiguous sublist of the second list? -/
def isSubOf (needle : List Char) : List Char → Bool
  | [] => needle.isEmpty
  | c :: cs => needle.isPrefixOf (c :: cs) || isSubOf needle cs

/-- Python substring test `needle in hay`. -/
def pyContains (hay needle : String) : Bool := isSubOf needle.data hay.data

/-- Helper for Python `str.split()`: skip a run of whitespace. -/
def skipPySpaces (s : List Char) : List Char := s.dropWhile isPySpace

/-- Python `str.split()` (no separator): split on whitespace runs,
discarding empty fields. -/
def splitWsL : List Char → List (List Char)
  | [] => []
  | c :: cs =>
    if isPySpace c then splitWsL cs
    else
      match splitWsL cs with
      | [] => [[c]]
      | w :: ws =>
        match cs with
        | [] => [[c]]
        | c2 :: _ => if isPySpace c2 then [c] :: w :: ws else (c :: w) :: ws

/-- Python `str.split()` on a `String`. -/
def pySplit (s : String) : List String := (splitWsL s.data).map (fun l => ⟨l⟩)

/-! ## `CommandSecurity` (src/core/command_executor.py, lines 40-104) -/

/-- `CommandSecurity.forbidden_commands`. In the source this is a Python
`set`; iteration order of a set is unspecified, so the listed order here
(the literal's order) only matters for which reason string is reported
when several entries match at once — no claim depends on that. -/
def forbidden_commands : List String :=
  ["rm -rf /", "rm -rf /*", "rm -rf ~/*",
   "dd if=", "mkfs.", "fdisk", "parted",
   "format", "erase", "shutdown", "reboot",
   ":()\x7b :|:& \x7d;:", "chmod -R 777 /", "chown -R",
   "systemctl disable", "systemctl mask"]

/-- `CommandSecurity.problematic_commands` (a dict, insertion order). -/
def problematic_commands : List (String × String) :=
  [("cp ", "cp commands often fail in this context - use package managers instead"),
   ("mv ", "mv commands can be unreliable - use install scripts instead"),
   ("ln -s", "symbolic links may not work properly - use absolute paths"),
   ("curl -o", "direct file downloads can be problematic - use package managers"),
   ("wget -O", "direct file downloads can be problematic - use package managers"),
   ("tar -x", "tar extraction should be done in controlled environment"),
   ("make install", "use AUR helpers like yay or paru instead")]

/-- Search for a position where a matcher fires (Python `re.search`). -/
def reSearch (p : List Char → Bool) : List Char → Bool
  | [] => p []
  | c :: cs => p (c :: cs) || reSearch p cs

/-- Is there a literal `*` later in the text with no newline before it?
This is `.*\*` continuing a match (`.` does not cross a newline). -/
def starBeforeNewline : List Char → Bool
  | [] => false
  | c :: cs => if c = '\n' then false else c = '*' || starBeforeNewline cs

/-- Matcher for `\*\s*/\s*` anchored at the current position (the
trailing `\s*` always matches). -/
def matchStarSlash : List Char → Bool
  | '*' :: rest =>
    match skipPySpaces rest with
    | '/' :: _ => true
    | _ => false
  | _ => false

/-- Matcher for `rm\s+.*\*` anchored at the current position: `rm`, one
whitespace, then (after the rest of the whitespace run) a `*` with no
intervening newline. -/
def matchRmWild : List Char → Bool
  | 'r' :: 'm' :: c :: rest => isPySpace c && starBeforeNewline (skipPySpaces rest)
  | _ => false

/-- Matcher for `chmod\s+.*\*` anchored at the current position. -/
def matchChmodWild : List Char → Bool
  | 'c' :: 'h' :: 'm' :: 'o' :: 'd' :: c :: rest =>
    isPySpace c && starBeforeNewline (skipPySpaces rest)
  | _ => false

/-- Matcher for `>\s*/dev/` anchored at the current position. -/
def matchDevRedirect : List Char → Bool
  | '>' :: rest => ['/', 'd', 'e', 'v', '/'].isPrefixOf (skipPySpaces rest)
  | _ => false

/-- Matcher for `\|\s*rm` anchored at the current position. -/
def matchPipeRm : List Char → Bool
  | '|' :: rest => ['r', 'm'].isPrefixOf (skipPySpaces rest)
  | _ => false

/-- `dangerous_patterns` of `is_command_safe`, each with the literal
regex text used in the reported reason. -/
def dangerous_patterns : List ((List Char → Bool) × String) :=
  [(matchStarSlash, "\\*\\s*/\\s*"),
   (matchRmWild, "rm\\s+.*\\*"),
   (matchChmodWild, "chmod\\s+.*\\*"),
   (matchDevRedirect, ">\\s*/dev/"),
   (matchPipeRm, "\\|\\s*rm")]

/-- Check 1 of `is_command_safe`: forbidden substrings. -/
def checkForbidden (command_lower : String) : Option String :=
  (forbidden_commands.find? (fun f => pyContains command_lower f)).map
    (fun f => "Forbidden command: " ++ f)

/-- Check 2 of `is_command_safe`: problematic command forms. -/
def checkProblematic (command_lower : String) : Option String :=
  (problematic_commands.find?
      (fun p => p.1.data.isPrefixOf command_lower.data
        || pyContains command_lower (" " ++ p.1))).map
    (fun p => "Problematic command: " ++ p.2)

/-- Check 3 of `is_command_safe`: dangerous regex patterns. -/
def checkDangerous (command_lower : String) : Option String :=
  (dangerous_patterns.find? (fun p => reSearch p.1 command_lower.data)).map
    (fun p => "Dangerous pattern: " ++ p.2)

/-- Check 4 of `is_command_safe`: path traversal substrings (tested on
the stripped command, original case). -/
def checkTraversal (command : String) : Option String :=
  if pyContains command "../" || pyContains command "/.." then
    some "Path traversal detected"
  else none

/-- The shell metacharacters of check 5. -/
def injection_chars : List Char := [';', '&', '`', '$', '(', ')']

/-- The allowlisted tool names of check 5. -/
def safe_exceptions : List String :=
  ["pacman", "yay", "paru", "flatpak", "systemctl", "journalctl"]

/-- Check 5 of `is_command_safe`: shell metacharacters, waived when a
trusted tool name occurs anywhere in the lowercased command. -/
def checkInjection (command command_lower : String) : Option String :=
  if injection_chars.any (fun c => command.data.contains c) then
    if safe_exceptions.any (fun s => pyContains command_lower s) then none
    else some "Potential shell injection"
  else none

/-- `CommandSecurity.is_command_safe`: the five checks in order,
short-circuiting on the first failure. -/
def is_command_safe (command : String) : Bool × Option String :=
  let command := pyStrip command
  let command_lower := pyLower command
  match checkForbidden command_lower with
  | some r => (false, some r)
  | none =>
  match checkProblematic command_lower with
  | some r => (false, some r)
  | none =>
  match checkDangerous command_lower with
  | some r => (false, some r)
  | none =>
  match checkTraversal command with
  | some r => (false, some r)
  | none =>
  match checkInjection command command_lower with
  | some r => (false, some r)
  | none => (true, none)

/-! ## `CommandStatus` and `CommandResult` (lines 20-38) -/

/-- `CommandStatus` enumeration. -/
inductive CommandStatus where
  | pending
  | running
  | success
  | failed
  | cancelled
  | needs_password
  | locked
deriving DecidableEq, Repr

/-- `CommandResult` dataclass. `execution_time` (a Python float measured
from the wall clock) is modelled as a `Nat` supplied by the environment. -/
structure CommandResult where
  command : String
  status : CommandStatus
  return_code : Int
  stdout : String
  stderr : String
  execution_time : Nat
deriving DecidableEq, Repr

/-! ## `ThreadSafePasswordManager` (lines 106-340) -/

/-- `self.cache_duration` (15 minutes). -/
def cache_duration : Nat := 900

/-- `self.max_attempts`. -/
def max_attempts : Nat := 3

/-- The mutable fields of `ThreadSafePasswordManager` that the claims
are about (`pending_requests` is the cross-thread rendezvous map and is
not modelled; the prompt's outcome is an environment input instead). -/
structure PMState where
  password_cache : Option String
  password_valid_until : Nat
  password_attempts : Nat
  last_failure_time : Nat
deriving DecidableEq, Repr

/-- The broker state as built by `__init__`. -/
def PMState.initial : PMState :=
  { password_cache := none, password_valid_until := 0,
    password_attempts := 0, last_failure_time := 0 }

/-- External inputs of one `request_password` round: the current wall
clock, the outcome of the `sudo -n true` probe
(`verify_sudo_session_simple`, an external subprocess), and what the
interactive dialog round-trip would hand back (`none` = refusal,
cancellation or timeout of the bounded wait). -/
structure BrokerEnv where
  now : Nat
  probeOk : Bool
  promptResult : Option String
deriving DecidableEq, Repr

/-- `is_password_cached_and_valid`: false on an empty cache (Python
truthiness also rejects a cached empty string), clears and rejects an
expired cache, otherwise defers to the non-interactive sudo probe.
Returns the verdict together with the (possibly cleared) state. -/
def is_password_cached_and_valid (s : PMState) (now : Nat) (probeOk : Bool) :
    Bool × PMState :=
  match s.password_cache with
  | none => (false, s)
  | some pw =>
    if pw = "" then (false, s)
    else if s.password_valid_until < now then
      (false, { s with password_cache := none })
    else (probeOk, s)

/-- `request_password`: cached credential first; then the rate limit
(counter at cap and fewer than 30 seconds since the last failure); else
an interactive prompt. The third component is a ghost flag recording
whether a prompt was issued (`password_requested.emit`). State changes
performed by the dialog itself are modelled separately by
`broker_step`. -/
def request_password (s : PMState) (env : BrokerEnv) :
    Option String × PMState × Bool :=
  let cached := is_password_cached_and_valid s env.now env.probeOk
  if cached.1 then (cached.2.password_cache, cached.2, false)
  else if max_attempts ≤ cached.2.password_attempts
      ∧ env.now - cached.2.last_failure_time < 30 then
    (none, cached.2, false)
  else
    (env.promptResult, cached.2, true)

/-- The state-mutating operations of the broker, as performed by
`_show_password_dialog` (its success and failure branches),
`invalidate_cache` and `increment_attempts`. -/
inductive BrokerOp where
  | dialogSuccess (pw : String) (now : Nat)
  | dialogFailure (now : Nat)
  | invalidateCache
  | incrementAttempts
deriving DecidableEq, Repr

/-- State transition of each broker operation, transcribed from the
source: a successful validation caches the password with a fresh expiry
and resets the attempt counter; a failed validation increments the
counter and records the failure time; `invalidate_cache` clears cache,
expiry and counter; `increment_attempts` increments and drops the cache
once the cap is reached. -/
def broker_step : BrokerOp → PMState → PMState
  | .dialogSuccess pw now, s =>
    { s with password_cache := some pw,
             password_valid_until := now + cache_duration,
             password_attempts := 0 }
  | .dialogFailure now, s =>
    { s with password_attempts := s.password_attempts + 1,
             last_failure_time := now }
  | .invalidateCache, s =>
    { s with password_cache := none, password_valid_until := 0,
             password_attempts := 0 }
  | .incrementAttempts, s =>
    let s1 := { s with password_attempts := s.password_attempts + 1 }
    if max_attempts ≤ s1.password_attempts then
      { s1 with password_cache := none }
    else s1

/-! ## `FixedCommandExecutor` (lines 342-636) -/

/-- The literal prompt strings of `filter_sudo_prompts`. -/
def sudo_prompts : List String :=
  ["[sudo] password for",
   "Password:",
   "Enter password:",
   "Sorry, try again.",
   "sudo: 3 incorrect password",
   "sudo: a terminal is required",
   "sudo: a password is required"]

/-- Is this line a sudo prompt line (`any(prompt in line ...)`)? -/
def isSudoPromptLine (line : List Char) : Bool :=
  sudo_prompts.any (fun p => isSubOf p.data line)

/-- Python `str.split('\n')`: split at every newline, keeping empty
fields (`"".split('\n') == [""]`). -/
def splitLines : List Char → List (List Char)
  | [] => [[]]
  | c :: cs =>
    if c = '\n' then [] :: splitLines cs
    else
      match splitLines cs with
      | [] => [[c]]
      | l :: ls => (c :: l) :: ls

/-- Python `'\n'.join`. -/
def joinLines : List (List Char) → List Char
  | [] => []
  | [l] => l
  | l :: l2 :: ls => l ++ '\n' :: joinLines (l2 :: ls)

/-- The line filter of `filter_sudo_prompts`: keep a line when it is not
a sudo prompt and `line.strip()` is truthy (non-empty). -/
def keepLine (line : List Char) : Bool :=
  !isSudoPromptLine line && !(pyStripL line).isEmpty

/-- `FixedCommandExecutor.filter_sudo_prompts`: empty input is returned
as-is; otherwise split into lines, drop prompt lines and blank lines,
rejoin with newlines. -/
def filter_sudo_prompts (stderr : String) : String :=
  if stderr = "" then stderr
  else ⟨joinLines ((splitLines stderr.data).filter keepLine)⟩

/-- Outcome of `prepare_command_with_sudo`: either the `(None, message)`
tuple (no password obtainable) or an argv list with an optional stdin
payload. -/
inductive PrepareResult where
  | noPassword (msg : String)
  | ready (cmd_list : List String) (password_input : Option String)
deriving DecidableEq, Repr

/-- `prepare_command_with_sudo`. Elevation is triggered exactly by
`command.strip().startswith('sudo')`; the word `sudo` is stripped and
the remainder re-wrapped as `sudo -S …` reading the secret on stdin.
With a valid cached credential the cached secret is used; otherwise
`request_password` runs (its cache re-check sees the same probe
outcome). A falsy password (`None` or `""`) yields the `noPassword`
tuple. The second component is the broker state after the round, the
third the ghost prompt flag. -/
def prepare_command_with_sudo (command : String) (pm : PMState)
    (env : BrokerEnv) : PrepareResult × PMState × Bool :=
  let needs_sudo := "sudo".data.isPrefixOf (pyStrip command).data
  if needs_sudo then
    let cmd_without_sudo := pyStrip ⟨(pyStrip command).data.drop 4⟩
    let cached := is_password_cached_and_valid pm env.now env.probeOk
    if cached.1 then
      (.ready (["sudo", "-S"] ++ pySplit cmd_without_sudo)
        (some (cached.2.password_cache.getD "" ++ "\n")), cached.2, false)
    else
      let req := request_password pm env
      match req.1 with
      | none => (.noPassword "Password required but not provided", req.2.1, req.2.2)
      | some pw =>
        if pw = "" then
          (.noPassword "Password required but not provided", req.2.1, req.2.2)
        else
          (.ready (["sudo", "-S"] ++ pySplit cmd_without_sudo)
            (some (pw ++ "\n")), req.2.1, req.2.2)
  else
    (.ready (pySplit command) none, pm, false)

/-- Environment of one `execute_command` call: the advisory lock file
probe, whether a process owning that lock is actually alive (never read
by the code — kept to state claim C1), the broker inputs, which
exceptions the spawn phase raises, the child's behaviour, the value of
the cross-thread cancellation flag when it is read, and the measured
wall time. -/
structure ExecEnv where
  lockExists : Bool
  pacmanRunning : Bool
  broker : BrokerEnv
  spawnExn : Option String
  writeExn : Option String
  commTimedOut : Bool
  return_code : Int
  stdoutCaptured : String
  stderrCaptured : String
  cancelRequested : Bool
  elapsed : Nat
deriving DecidableEq, Repr

/-- Result of a modelled `execute_command` call, with ghost
instrumentation: whether a child process was created, whether control
entered the `try` block around `Popen` (the spawn phase), and the
values of `self.is_running` / `self.current_process` after the call. -/
structure ExecTrace where
  result : CommandResult
  spawned : Bool
  reachedSpawnPhase : Bool
  is_running_after : Bool
  current_process_after : Bool
deriving DecidableEq, Repr

/-- `FixedCommandExecutor.check_pacman_lock`: a bare
`os.path.exists("/var/lib/pacman/db.lck")` — no process-existence check
is performed anywhere in the repository. -/
def check_pacman_lock (env : ExecEnv) : Bool := env.lockExists

/-- `FixedCommandExecutor.execute_command`. `use_sudo` is accepted and
never read, exactly as in the source. `is_running0` /
`current_process0` are the executor's flags before the call; the paths
that return before the `try` block leave them untouched, every path
through the `try` block resets them in `finally`. The five result
shapes are transcribed literally from the five `CommandResult`
constructions of the source (safety block, pacman lock, no password,
password-send failure, timeout, generic exception, normal
completion). -/
def execute_command (command : String) (use_sudo : Bool) (timeout : Nat)
    (pm : PMState) (env : ExecEnv) (is_running0 current_process0 : Bool) :
    ExecTrace :=
  if !(is_command_safe command).1 then
    { result := { command := command, status := .failed, return_code := -1,
                  stdout := "", stderr := "Command blocked for safety reasons",
                  execution_time := 0 },
      spawned := false, reachedSpawnPhase := false,
      is_running_after := is_running0, current_process_after := current_process0 }
  else if pyContains (pyLower command) "pacman" && check_pacman_lock env then
    { result := { command := command, status := .locked, return_code := -1,
                  stdout := "",
                  stderr := "Pacman database is locked. Another package manager may be running.",
                  execution_time := env.elapsed },
      spawned := false, reachedSpawnPhase := false,
      is_running_after := is_running0, current_process_after := current_process0 }
  else
    match (prepare_command_with_sudo command pm env.broker).1 with
    | .noPassword msg =>
      { result := { command := command, status := .needs_password,
                    return_code := -1, stdout := "", stderr := msg,
                    execution_time := env.elapsed },
        spawned := false, reachedSpawnPhase := false,
        is_running_after := is_running0, current_process_after := current_process0 }
    | .ready _ password_input =>
      match env.spawnExn with
      | some e =>
        { result := { command := command, status := .failed, return_code := -1,
                      stdout := "", stderr := "Execution error: " ++ e,
                      execution_time := env.elapsed },
          spawned := false, reachedSpawnPhase := true,
          is_running_after := false, current_process_after := false }
      | none =>
        if password_input.isSome && env.writeExn.isSome then
          { result := { command := command, status := .failed, return_code := -1,
                        stdout := "",
                        stderr := "Failed to send password: " ++ env.writeExn.getD "",
                        execution_time := env.elapsed },
            spawned := true, reachedSpawnPhase := true,
            is_running_after := false, current_process_after := false }
        else if env.commTimedOut then
          { result := { command := command, status := .failed, return_code := -1,
                        stdout := env.stdoutCaptured,
                        stderr := env.stderrCaptured ++ "\nCommand timed out",
                        execution_time := env.elapsed },
            spawned := true, reachedSpawnPhase := true,
            is_running_after := false, current_process_after := false }
        else
          { result := { command := command,
                        status := if env.cancelRequested then .cancelled
                          else if env.return_code = 0 then .success else .failed,
                        return_code := env.return_code,
                        stdout := env.stdoutCaptured,
                        stderr := filter_sudo_prompts env.stderrCaptured,
                        execution_time := env.elapsed },
            spawned := true, reachedSpawnPhase := true,
            is_running_after := false, current_process_after := false }

/-! ## `SafeCommandExecutionThread` (lines 639-702) -/

/-- The `{name, command}` part of a ToolDescriptor. -/
structure Tool where
  name : String
  command : String
deriving DecidableEq, Repr

/-- Outcome of one `execute_command` call inside the batch loop: a
returned result, or an exception caught by the loop's handler. -/
inductive ItemOutcome where
  | ok (r : CommandResult)
  | exn (msg : String)
deriving DecidableEq, Repr

/-- One entry of `self.results`, as appended by the loop body. -/
structure BatchEntry where
  tool : Tool
  result : Option CommandResult
  success : Bool
  error : Option String
deriving DecidableEq, Repr

/-- The loop body of `SafeCommandExecutionThread.run` for one item:
`success = (result.status.value == "success")` on a returned result, a
caught exception records a failure with the error text. -/
def batchEntryFor (exec : Nat → Tool → ItemOutcome) (i : Nat) (tool : Tool) :
    BatchEntry :=
  match exec i tool with
  | .ok r =>
    { tool := tool, result := some r,
      success := r.status = CommandStatus.success, error := none }
  | .exn e =>
    { tool := tool, result := none, success := false, error := some e }

/-- The observable outcome of `SafeCommandExecutionThread.run`. -/
structure BatchTrace where
  results : List BatchEntry
  progressEvents : List (Nat × String)
  success_count : Nat
deriving DecidableEq, Repr

/-- `SafeCommandExecutionThread.run`: for each item emit
`int((i/total)*100)` (exact-arithmetic model: `i*100/total` with `Nat`
floor division) with an `Executing:` label, run the item with every
exception caught, then emit `(100, "Completed")` and count the
successes. `exec` maps the loop index and tool to the outcome of the
underlying `execute_command` call. -/
def SafeCommandExecutionThread.run (exec : Nat → Tool → ItemOutcome)
    (tools : List Tool) : BatchTrace :=
  let total := tools.length
  let results := tools.enum.map (fun it => batchEntryFor exec it.1 it.2)
  { results := results,
    progressEvents :=
      tools.enum.map (fun it => (it.1 * 100 / total, "Executing: " ++ it.2.name))
        ++ [(100, "Completed")],
    success_count := (results.filter (fun e => e.success)).length }

/-! ## Auxiliary definitions for stating the claims -/

/-- Refinement target for claim C3, following the claim's words rather
than the source: remove exactly the lines containing a known
sudo-prompt string, drop or alter nothing else. -/
def filterPromptLinesOnlySpec (stderr : String) : String :=
  ⟨joinLines ((splitLines stderr.data).filter (fun l => !isSudoPromptLine l))⟩

/-- Guard collecting everything needed for `execute_command` to get past
validation, the lock probe, credential preparation and spawning, i.e. to
reach `communicate` on the child: the Security Validator passes, the
pacman-lock branch is not taken, `prepare_command_with_sudo` produced an
argv (with no failure while writing the password), and `Popen` did not
raise. -/
def reachesCommunicate (command : String) (pm : PMState) (env : ExecEnv) : Prop :=
  (is_command_safe command).1 = true
  ∧ (pyContains (pyLower command) "pacman" && env.lockExists) = false
  ∧ (∃ cl pi, (prepare_command_with_sudo command pm env.broker).1 = .ready cl pi
      ∧ (pi.isSome && env.writeExn.isSome) = false)
  ∧ env.spawnExn = none

/-- A benign environment: no lock file, no probe success, no prompt
answer, no exceptions, child exits 0 with empty output. -/
def envBase : ExecEnv :=
  { lockExists := false, pacmanRunning := false,
    broker := { now := 0, probeOk := false, promptResult := none },
    spawnExn := none, writeExn := none, commTimedOut := false,
    return_code := 0, stdoutCaptured := "", stderrCaptured := "",
    cancelRequested := false, elapsed := 0 }

/-- A broker state with two failed attempts and a cached secret. -/
def sAttempts2 : PMState :=
  { password_cache := some "x", password_valid_until := 100,
    password_attempts := 2, last_failure_time := 50 }

/-- A broker state inside the cooldown window (counter at the cap, last
failure 10 time units ago at clock 500) that nevertheless still holds a
valid cached secret. -/
def sCoolCached : PMState :=
  { password_cache := some "pw", password_valid_until := 1000,
    password_attempts := 3, last_failure_time := 490 }

/-- The clock/probe/prompt inputs under which `sCoolCached` is inside
its cooldown window while the cache probe succeeds. -/
def envCool : BrokerEnv := { now := 500, probeOk := true, promptResult := none }

/-! ## Claim C2 -/

/-- C2 counterexample: on the forbidden command `rm -rf /` the Security
Validator's rejection text is `Forbidden command: rm -rf /`, but the
stderr of the `failed` result returned by `execute_command` is the fixed
string `Command blocked for safety reasons` — the rejection text is not
the reason handed back, so the claim as stated is false. -/
theorem C2_counterexample :
    (execute_command "rm -rf /" true 300 PMState.initial envBase false false).result.stderr
      = "Command blocked for safety reasons"
    ∧ (is_command_safe "rm -rf /").2 = some "Forbidden command: rm -rf /"
    ∧ (execute_command "rm -rf /" true 300 PMState.initial envBase false false).result.stderr
      ≠ "Forbidden command: rm -rf /" := by
  refine ⟨by decide, by decide, by decide⟩

/-- C2 (amended): for every command the Security Validator rejects,
`execute_command` returns a `failed` result with exit code −1, empty
stdout and the fixed stderr text `Command blocked for safety reasons`
(not the validator's reason, which is only logged), no process spawned
and the executor's run state untouched. -/
theorem C2_rejected_command_fails_without_spawn (command : String) (u : Bool)
    (t : Nat) (pm : PMState) (env : ExecEnv) (r0 p0 : Bool)
    (h : (is_command_safe command).1 = false) :
    execute_command command u t pm env r0 p0 =
      { result := { command := command, status := .failed, return_code := -1,
                    stdout := "", stderr := "Command blocked for safety reasons",
                    execution_time := 0 },
        spawned := false, reachedSpawnPhase := false,
        is_running_after := r0, current_process_after := p0 } := by
  unfold execute_command
  rw [h]
  rfl

/-- Witness for C2 at the concrete rejected command `rm -rf /`. -/
theorem C2_witness :
    execute_command "rm -rf /" true 300 PMState.initial envBase false false =
      { result := { command := "rm -rf /", status := .failed, return_code := -1,
                    stdout := "", stderr := "Command blocked for safety reasons",
                    execution_time := 0 },
        spawned := false, reachedSpawnPhase := false,
        is_running_after := false, current_process_after := false } :=
  C2_rejected_command_fails_without_spawn "rm -rf /" true 300 PMState.initial
    envBase false false (by decide)

/-! ## Claim C1 -/

/-- C1 counterexample. The claim asserts the `locked` verdict is taken
only after a process-existence check disambiguates a stale lock from an
active one. The code performs no such check (`check_pacman_lock` is a
bare lock-file existence test): `sudo pacman -Syu` is finalized as
`locked` even when the lock-owning process is actually running, and the
pacman command `pacman ../x` with a stale lock is finalized as `failed`
(safety rejection), not `locked`, so the claim's universal reading also
fails on commands the validator rejects. -/
theorem C1_counterexample :
    (execute_command "sudo pacman -Syu" true 300 PMState.initial
      { envBase with lockExists := true, pacmanRunning := true }
      false false).result.status = .locked
    ∧ ({ envBase with lockExists := true, pacmanRunning := true } : ExecEnv).pacmanRunning
      = true
    ∧ (execute_command "pacman ../x" true 300 PMState.initial
        { envBase with lockExists := true, pacmanRunning := false }
        false false).result.status = .failed := by
  refine ⟨by decide, by decide, by decide⟩

/-- C1 (amended): for every command containing `pacman` (in the
lowercased text) that passes the Security Validator, if the advisory
lock file is present then `execute_command` finalizes with
status=`locked` and spawns no process, regardless of whether the
lock-owning process is actually running — the verdict is based solely on
the lock file's existence, with no process-existence check. -/
theorem C1_lockfile_yields_locked (command : String) (u : Bool) (t : Nat)
    (pm : PMState) (env : ExecEnv) (r0 p0 : Bool)
    (hsafe : (is_command_safe command).1 = true)
    (hpac : pyContains (pyLower command) "pacman" = true)
    (hlock : env.lockExists = true) :
    (execute_command command u t pm env r0 p0).result.status = .locked
    ∧ (execute_command command u t pm env r0 p0).spawned = false := by
  unfold execute_command check_pacman_lock
  rw [hsafe, hpac, hlock]
  exact ⟨rfl, rfl⟩

/-- Witness for C1 (amended) at `sudo pacman -Syu` with the lock file
present while the owning process is still running. -/
theorem C1_witness :
    (execute_command "sudo pacman -Syu" true 300 PMState.initial
      { envBase with lockExists := true, pacmanRunning := true }
      false false).result.status = .locked
    ∧ (execute_command "sudo pacman -Syu" true 300 PMState.initial
        { envBase with lockExists := true, pacmanRunning := true }
        false false).spawned = false :=
  C1_lockfile_yields_locked "sudo pacman -Syu" true 300 PMState.initial
    { envBase with lockExists := true, pacmanRunning := true } false false
    (by decide) (by decide) (by decide)

/-! ## Claim C4 -/

/-- C4 counterexample: negation of "the failed-attempt counter is reset
to zero only by a successful password validation". `invalidate_cache`
(the `BrokerOp.invalidateCache` step) resets a counter standing at 2
back to zero, and it is not a successful validation. -/
theorem C4_counterexample :
    ¬ (∀ (op : BrokerOp) (s : PMState),
        s.password_attempts ≠ 0 → (broker_step op s).password_attempts = 0 →
        ∃ pw now, op = BrokerOp.dialogSuccess pw now) := by
  intro h
  obtain ⟨pw, now, hEq⟩ := h .invalidateCache sAttempts2 (by decide) (by decide)
  cases hEq

/-- C4 (amended): the failed-attempt counter is reset to zero only by a
successful password validation or by the explicit `invalidate_cache`
operation; no other broker operation sets it back to zero. -/
theorem C4_attempts_reset_only_by_success_or_invalidate (op : BrokerOp)
    (s : PMState) (h1 : s.password_attempts ≠ 0)
    (h2 : (broker_step op s).password_attempts = 0) :
    (∃ pw now, op = BrokerOp.dialogSuccess pw now)
    ∨ op = BrokerOp.invalidateCache := by
  cases op with
  | dialogSuccess pw now => exact Or.inl ⟨pw, now, rfl⟩
  | dialogFailure now => simp [broker_step] at h2
  | invalidateCache => exact Or.inr rfl
  | incrementAttempts =>
    exfalso
    simp only [broker_step] at h2
    split at h2 <;> simp at h2

/-- Witness for C4 (amended) at the `invalidate_cache` step from the
state with two failed attempts. -/
theorem C4_witness :
    (∃ pw now, BrokerOp.invalidateCache = BrokerOp.dialogSuccess pw now)
    ∨ BrokerOp.invalidateCache = BrokerOp.invalidateCache :=
  C4_attempts_reset_only_by_success_or_invalidate .invalidateCache sAttempts2
    (by decide) (by decide)

/-! ## Claim C5 -/

/-- C5 counterexample: in the state `sCoolCached` the failed-attempt
counter is at its cap and only 10 time units have elapsed since the
recorded last failure, yet `request_password` returns the cached secret
rather than none, because the cached-credential check runs before the
rate limit. -/
theorem C5_counterexample :
    max_attempts ≤ sCoolCached.password_attempts
    ∧ envCool.now - sCoolCached.last_failure_time < 30
    ∧ (request_password sCoolCached envCool).1 = some "pw" := by
  refine ⟨by decide, by decide, by decide⟩

/-- C5 (amended): whenever the cached-credential check fails, the
failed-attempt counter has reached its cap (3) and fewer than 30 time
units have elapsed since the recorded last failure, `request_password`
returns none immediately and issues no prompt. -/
theorem C5_cooldown_suppresses_prompt (s : PMState) (env : BrokerEnv)
    (hc : (is_password_cached_and_valid s env.now env.probeOk).1 = false)
    (ha : max_attempts ≤ s.password_attempts)
    (ht : env.now - s.last_failure_time < 30) :
    (request_password s env).1 = none ∧ (request_password s env).2.2 = false := by
  have hstate : (is_password_cached_and_valid s env.now env.probeOk).2.password_attempts
        = s.password_attempts
      ∧ (is_password_cached_and_valid s env.now env.probeOk).2.last_failure_time
        = s.last_failure_time := by
    unfold is_password_cached_and_valid
    rcases s.password_cache with _ | pw
    · exact ⟨rfl, rfl⟩
    · dsimp only
      split
      · exact ⟨rfl, rfl⟩
      · split <;> exact ⟨rfl, rfl⟩
  have h2 : max_attempts
        ≤ (is_password_cached_and_valid s env.now env.probeOk).2.password_attempts
      ∧ env.now
        - (is_password_cached_and_valid s env.now env.probeOk).2.last_failure_time
        < 30 := by
    rw [hstate.1, hstate.2]; exact ⟨ha, ht⟩
  simp only [request_password, hc, Bool.false_eq_true, if_false, if_pos h2]
  exact ⟨trivial, trivial⟩

/-- Witness for C5 (amended): empty cache, counter at the cap, failure
10 time units ago. -/
theorem C5_witness :
    (request_password
        { password_cache := none, password_valid_until := 0,
          password_attempts := 3, last_failure_time := 0 }
        { now := 10, probeOk := false, promptResult := some "x" }).1 = none
    ∧ (request_password
        { password_cache := none, password_valid_until := 0,
          password_attempts := 3, last_failure_time := 0 }
        { now := 10, probeOk := false, promptResult := some "x" }).2.2 = false :=
  C5_cooldown_suppresses_prompt
    { password_cache := none, password_valid_until := 0,
      password_attempts := 3, last_failure_time := 0 }
    { now := 10, probeOk := false, promptResult := some "x" }
    (by decide) (by decide) (by decide)

/-! ## Claim C10 -/

/-- C10: the `use_sudo` parameter of `execute_command` is never read, so
for every command, timeout, broker state and environment the call with
`use_sudo = true` is identical to the call with `use_sudo = false`;
elevation handling is determined solely by whether the stripped command
text starts with `sudo` — when it does not,
`prepare_command_with_sudo` simply tokenizes the command, consults no
credential and issues no prompt. -/
theorem C10_use_sudo_has_no_effect (command : String) (t : Nat) (pm : PMState)
    (env : ExecEnv) (r0 p0 : Bool) :
    execute_command command true t pm env r0 p0
      = execute_command command false t pm env r0 p0
    ∧ ("sudo".data.isPrefixOf (pyStrip command).data = false →
        prepare_command_with_sudo command pm env.broker
          = (.ready (pySplit command) none, pm, false)) := by
  refine ⟨rfl, fun h => ?_⟩
  unfold prepare_command_with_sudo
  rw [h]
  rfl

/-- Witness for C10 at the non-elevated command `echo hi`. -/
theorem C10_witness :
    execute_command "echo hi" true 300 PMState.initial envBase false false
      = execute_command "echo hi" false 300 PMState.initial envBase false false
    ∧ prepare_command_with_sudo "echo hi" PMState.initial envBase.broker
      = (.ready (pySplit "echo hi") none, PMState.initial, false) :=
  ⟨(C10_use_sudo_has_no_effect "echo hi" 300 PMState.initial envBase false false).1,
   (C10_use_sudo_has_no_effect "echo hi" 300 PMState.initial envBase false false).2
     (by decide)⟩

/-! ## Claim C9 -/

/-- C9: every `execute_command` call that reaches the spawn phase (the
`try` block around `Popen`) ends with the ProcessHandle released — the
`finally` clause leaves `is_running = False` and `current_process =
None` on every path (normal completion, timeout, cancellation,
password-send failure, and any exception caught at the coordinator
boundary) — and an execution exception is converted into a `failed`
result carrying diagnostic text instead of propagating (the model of
`execute_command` is a total function: every exception outcome maps to a
returned result). -/
theorem C9_process_handle_released (command : String) (u : Bool) (t : Nat)
    (pm : PMState) (env : ExecEnv) (r0 p0 : Bool) :
    ((execute_command command u t pm env r0 p0).reachedSpawnPhase = true →
      (execute_command command u t pm env r0 p0).is_running_after = false
      ∧ (execute_command command u t pm env r0 p0).current_process_after = false)
    ∧ (∀ e, env.spawnExn = some e →
        (execute_command command u t pm env r0 p0).reachedSpawnPhase = true →
        (execute_command command u t pm env r0 p0).result.status = .failed
        ∧ (execute_command command u t pm env r0 p0).result.stderr
          = "Execution error: " ++ e) := by
  unfold execute_command
  repeat' split
  all_goals refine ⟨fun h => ?_, fun e he h => ?_⟩
  all_goals simp_all

/-- Witness for C9: a run of `echo hi` that reaches the spawn phase and
completes normally releases the handle. -/
theorem C9_witness :
    (execute_command "echo hi" true 300 PMState.initial envBase false false).is_running_after
      = false
    ∧ (execute_command "echo hi" true 300 PMState.initial envBase
        false false).current_process_after = false :=
  (C9_process_handle_released "echo hi" true 300 PMState.initial envBase
    false false).1 (by decide)

/-! ## Claim C6 -/

/-- C6: for every run that reaches `communicate` on the child, the
result is classified exactly as the source does: on the non-timeout
path the cancellation flag overrides the exit-code outcomes
(cancelled; else exit code zero → success; else failed) and the
captured output is returned; on the timeout path the status is `failed`
with the timeout marker appended to stderr while the output captured
before termination is still returned. (In the source the timeout branch
returns before the flag is consulted, so the flag's override applies to
the exit-code classification, exactly as stated here.) -/
theorem C6_finalization_classification (command : String) (u : Bool) (t : Nat)
    (pm : PMState) (env : ExecEnv) (r0 p0 : Bool)
    (h : reachesCommunicate command pm env) :
    (env.commTimedOut = false →
      (execute_command command u t pm env r0 p0).result.status
        = (if env.cancelRequested then .cancelled
           else if env.return_code = 0 then .success else .failed)
      ∧ (execute_command command u t pm env r0 p0).result.stdout
        = env.stdoutCaptured
      ∧ (execute_command command u t pm env r0 p0).result.return_code
        = env.return_code)
    ∧ (env.commTimedOut = true →
      (execute_command command u t pm env r0 p0).result.status = .failed
      ∧ (execute_command command u t pm env r0 p0).result.stdout
        = env.stdoutCaptured
      ∧ (execute_command command u t pm env r0 p0).result.stderr
        = env.stderrCaptured ++ "\nCommand timed out") := by
  obtain ⟨h1, h2, ⟨cl, pi, hp, hw⟩, hs⟩ := h
  unfold execute_command check_pacman_lock
  rw [hp]
  simp only [h1, h2, hs, hw, Bool.not_true, Bool.false_eq_true, if_false]
  constructor <;> intro ht <;> simp [ht]

/-- Witness for C6: a cancelled run of `echo hi` (child exited 0, flag
set) is classified `cancelled`, and a timed-out run is classified
`failed` with the marker appended to the captured stderr. -/
theorem C6_witness :
    (execute_command "echo hi" true 300 PMState.initial
      { envBase with cancelRequested := true, stdoutCaptured := "hi\n" }
      false false).result.status = .cancelled
    ∧ (execute_command "echo hi" true 300 PMState.initial
        { envBase with commTimedOut := true, stdoutCaptured := "partial",
                       stderrCaptured := "late" }
        false false).result.status = .failed
    ∧ (execute_command "echo hi" true 300 PMState.initial
        { envBase with commTimedOut := true, stdoutCaptured := "partial",
                       stderrCaptured := "late" }
        false false).result.stderr = "late\nCommand timed out" := by
  have hc := (C6_finalization_classification "echo hi" true 300 PMState.initial
    { envBase with cancelRequested := true, stdoutCaptured := "hi\n" } false false
    ⟨by decide, by decide, ⟨["echo", "hi"], none, by decide, by decide⟩, by decide⟩).1
    (by decide)
  have htm := (C6_finalization_classification "echo hi" true 300 PMState.initial
    { envBase with commTimedOut := true, stdoutCaptured := "partial",
                   stderrCaptured := "late" } false false
    ⟨by decide, by decide, ⟨["echo", "hi"], none, by decide, by decide⟩, by decide⟩).2
    (by decide)
  exact ⟨hc.1, htm.1, htm.2.2⟩

/-! ## Claim C8 -/

/-- C8: for every command that passes checks 1–4 of the validator
(forbidden substrings, problematic forms, dangerous patterns, path
traversal): if it contains any of the shell metacharacters
`; & \` $ ( )` and none of the trusted tool names occurs anywhere in its
lowercased text, `is_command_safe` rejects it with the shell-injection
reason; if one of those trusted names does occur anywhere, the
metacharacter check is waived and the command is allowed with no
reason. -/
theorem C8_injection_check_with_allowlist (command : String)
    (h1 : checkForbidden (pyLower (pyStrip command)) = none)
    (h2 : checkProblematic (pyLower (pyStrip command)) = none)
    (h3 : checkDangerous (pyLower (pyStrip command)) = none)
    (h4 : checkTraversal (pyStrip command) = none) :
    (injection_chars.any (fun c => (pyStrip command).data.contains c) = true →
      safe_exceptions.any (fun s => pyContains (pyLower (pyStrip command)) s) = false →
      is_command_safe command = (false, some "Potential shell injection"))
    ∧ (safe_exceptions.any (fun s => pyContains (pyLower (pyStrip command)) s) = true →
      is_command_safe command = (true, none)) := by
  unfold is_command_safe
  dsimp only
  rw [h1, h2, h3, h4]
  unfold checkInjection
  constructor
  · intro hm ha
    simp only [hm, ha]
    rfl
  · intro ha
    simp only [ha]
    split <;> simp_all

/-- Witness for C8: `echo $HOME` (metacharacter, no trusted name) is
rejected as potential shell injection; `systemctl status foo; echo done`
(metacharacter, trusted name `systemctl`) is allowed with no reason. -/
theorem C8_witness :
    is_command_safe "echo $HOME" = (false, some "Potential shell injection")
    ∧ is_command_safe "systemctl status foo; echo done" = (true, none) :=
  ⟨(C8_injection_check_with_allowlist "echo $HOME"
      (by decide) (by decide) (by decide) (by decide)).1 (by decide) (by decide),
   (C8_injection_check_with_allowlist "systemctl status foo; echo done"
      (by decide) (by decide) (by decide) (by decide)).2 (by decide)⟩

/-! ## Helper lemmas about line splitting and joining -/

/-- `splitLines` never returns the empty list. -/
theorem splitLines_ne_nil : ∀ cs : List Char, splitLines cs ≠ []
  | [] => by simp [splitLines]
  | c :: cs => by
    unfold splitLines
    split
    · simp
    · split <;> simp

/-- No element of `splitLines cs` contains a newline. -/
theorem mem_splitLines_no_newline (cs : List Char) :
    ∀ l ∈ splitLines cs, '\n' ∉ l := by
  induction cs with
  | nil =>
    intro l hl
    simp [splitLines] at hl
    subst hl
    simp
  | cons c cs ih =>
    intro l hl
    unfold splitLines at hl
    by_cases hc : c = '\n'
    · rw [if_pos hc] at hl
      rcases List.mem_cons.mp hl with h | h
      · subst h; simp
      · exact ih l h
    · rw [if_neg hc] at hl
      rcases hsplit : splitLines cs with _ | ⟨l', ls⟩
      · exact absurd hsplit (splitLines_ne_nil cs)
      · rw [hsplit] at hl
        rcases List.mem_cons.mp hl with h | h
        · subst h
          intro hmem
          rcases List.mem_cons.mp hmem with h' | h'
          · exact hc h'.symm
          · exact ih l' (by rw [hsplit]; exact List.mem_cons_self l' ls) h'
        · exact ih l (by rw [hsplit]; exact List.mem_cons_of_mem l' h)

/-- Splitting after appending a newline-free line and a newline peels
off exactly that line. -/
theorem splitLines_append_newline :
    ∀ l rest : List Char, '\n' ∉ l →
      splitLines (l ++ '\n' :: rest) = l :: splitLines rest := by
  intro l
  induction l with
  | nil => intro rest _; simp [splitLines]
  | cons c l ih =>
    intro rest hnl
    have hc : ¬ c = '\n' := fun h => hnl (by rw [h]; exact List.mem_cons_self _ _)
    have hl : '\n' ∉ l := fun h => hnl (List.mem_cons_of_mem _ h)
    show splitLines (c :: (l ++ '\n' :: rest)) = (c :: l) :: splitLines rest
    rw [splitLines, if_neg hc, ih rest hl]

/-- Splitting a newline-free line yields the singleton of that line. -/
theorem splitLines_single (l : List Char) (h : '\n' ∉ l) :
    splitLines l = [l] := by
  induction l with
  | nil => rfl
  | cons c l ih =>
    have hc : ¬ c = '\n' := fun hcc => h (by rw [hcc]; exact List.mem_cons_self _ _)
    have hl : '\n' ∉ l := fun hm => h (List.mem_cons_of_mem _ hm)
    unfold splitLines
    rw [if_neg hc, ih hl]

/-- Joining then splitting newline-free lines is the identity (on a
nonempty list of lines). -/
theorem splitLines_joinLines :
    ∀ ls : List (List Char), ls ≠ [] → (∀ l ∈ ls, '\n' ∉ l) →
      splitLines (joinLines ls) = ls := by
  intro ls
  induction ls with
  | nil => intro h _; exact absurd rfl h
  | cons l ls ih =>
    intro _ hnl
    cases ls with
    | nil => exact splitLines_single l (hnl l (List.mem_cons_self _ _))
    | cons l2 ls2 =>
      have hjoin : joinLines (l :: l2 :: ls2) = l ++ '\n' :: joinLines (l2 :: ls2) := rfl
      rw [hjoin, splitLines_append_newline l _ (hnl l (List.mem_cons_self _ _)),
        ih (by simp) (fun x hx => hnl x (List.mem_cons_of_mem _ hx))]

/-! ## Claim C3 -/

/-- C3 counterexample: on the child stderr `error one\n\nerror two`
(which contains no sudo-prompt line at all) the spec-predicted output —
remove exactly the prompt lines — keeps the blank middle line, but
`filter_sudo_prompts` drops it; the filtered stderr therefore differs
from the claim's "only prompt lines are removed" prediction. -/
theorem C3_counterexample :
    filter_sudo_prompts "error one\n\nerror two" = "error one\nerror two"
    ∧ filterPromptLinesOnlySpec "error one\n\nerror two" = "error one\n\nerror two"
    ∧ filter_sudo_prompts "error one\n\nerror two"
      ≠ filterPromptLinesOnlySpec "error one\n\nerror two" := by
  refine ⟨by decide, by decide, by decide⟩

/-- C3 (amended): the stderr handed back by `execute_command` on the
normal-completion path is `filter_sudo_prompts` of what the child
wrote, and that filter keeps the child's lines unaltered and in order,
removing exactly the lines containing a known sudo-prompt string and
the whitespace-only lines: the line list of its output is the filtered
line list of its input (empty filtered list giving the empty string). -/
theorem C3_stderr_line_filtering (s : String) (command : String) (u : Bool)
    (t : Nat) (pm : PMState) (env : ExecEnv) (r0 p0 : Bool) (hs : s ≠ "")
    (h : reachesCommunicate command pm env) (hnt : env.commTimedOut = false) :
    ((splitLines s.data).filter keepLine = [] → filter_sudo_prompts s = "")
    ∧ ((splitLines s.data).filter keepLine ≠ [] →
        splitLines (filter_sudo_prompts s).data
          = (splitLines s.data).filter keepLine)
    ∧ (execute_command command u t pm env r0 p0).result.stderr
      = filter_sudo_prompts env.stderrCaptured := by
  refine ⟨?_, ?_, ?_⟩
  · intro hempty
    unfold filter_sudo_prompts
    rw [if_neg hs, hempty]
    rfl
  · intro hne
    have hval : filter_sudo_prompts s
        = ⟨joinLines ((splitLines s.data).filter keepLine)⟩ := by
      unfold filter_sudo_prompts
      rw [if_neg hs]
    rw [hval]
    exact splitLines_joinLines _ hne
      (fun l hl => mem_splitLines_no_newline s.data l (List.mem_of_mem_filter hl))
  · obtain ⟨h1, h2, ⟨cl, pi, hp, hw⟩, hsp⟩ := h
    unfold execute_command check_pacman_lock
    rw [hp]
    simp only [h1, h2, hsp, hw, hnt, Bool.not_true, Bool.false_eq_true, if_false]

/-- Witness for C3 (amended) on the stderr
`a\nSorry, try again.\n\nb`: the sudo-prompt line and the blank line
are removed, `a` and `b` survive unaltered, and a normal `echo hi` run
hands exactly the filtered text back. -/
theorem C3_witness :
    splitLines (filter_sudo_prompts "a\nSorry, try again.\n\nb").data
      = (splitLines ("a\nSorry, try again.\n\nb").data).filter keepLine
    ∧ (execute_command "echo hi" true 300 PMState.initial
        { envBase with stderrCaptured := "a\nSorry, try again.\n\nb" }
        false false).result.stderr
      = filter_sudo_prompts "a\nSorry, try again.\n\nb" := by
  have h := C3_stderr_line_filtering "a\nSorry, try again.\n\nb" "echo hi" true 300
    PMState.initial { envBase with stderrCaptured := "a\nSorry, try again.\n\nb" }
    false false (by decide)
    ⟨by decide, by decide, ⟨["echo", "hi"], none, by decide, by decide⟩, by decide⟩
    (by decide)
  exact ⟨h.2.1 (by decide), h.2.2⟩

/-! ## Claim C7 -/

/-- The loop body records the tool it ran, whatever the outcome. -/
theorem batchEntryFor_tool (exec : Nat → Tool → ItemOutcome) (i : Nat)
    (tool : Tool) : (batchEntryFor exec i tool).tool = tool := by
  unfold batchEntryFor
  split <;> rfl

/-- An entry's success flag holds exactly when it carries a returned
result whose status is `success` (a caught exception never counts). -/
theorem batchEntryFor_success (exec : Nat → Tool → ItemOutcome) (i : Nat)
    (tool : Tool) :
    (batchEntryFor exec i tool).success
      = (batchEntryFor exec i tool).result.any
          (fun r => r.status = CommandStatus.success) := by
  unfold batchEntryFor
  split <;> rfl

/-- C7: the Batch Scheduler records an entry for every descriptor in
order (an item's failure or caught exception never aborts the loop),
the final aggregate success count is exactly the number of entries
whose recorded result has status `success`, and the emitted progress
percentages are non-decreasing and end with the final
`(100, Completed)` event. -/
theorem C7_batch_runs_all_and_reports_exact_progress
    (exec : Nat → Tool → ItemOutcome) (tools : List Tool) :
    (SafeCommandExecutionThread.run exec tools).results.map (fun e => e.tool)
      = tools
    ∧ (SafeCommandExecutionThread.run exec tools).success_count
      = ((SafeCommandExecutionThread.run exec tools).results.filter
          (fun e => e.result.any (fun r => r.status = CommandStatus.success))).length
    ∧ List.Chain' (fun a b => a ≤ b)
        ((SafeCommandExecutionThread.run exec tools).progressEvents.map Prod.fst)
    ∧ (SafeCommandExecutionThread.run exec tools).progressEvents.getLast?
      = some (100, "Completed") := by
  have hres : (SafeCommandExecutionThread.run exec tools).results
      = tools.enum.map (fun it => batchEntryFor exec it.1 it.2) := rfl
  have hprog : (SafeCommandExecutionThread.run exec tools).progressEvents
      = tools.enum.map
          (fun it => (it.1 * 100 / tools.length, "Executing: " ++ it.2.name))
        ++ [(100, "Completed")] := rfl
  have hcnt : (SafeCommandExecutionThread.run exec tools).success_count
      = ((tools.enum.map (fun it => batchEntryFor exec it.1 it.2)).filter
          (fun e => e.success)).length := rfl
  refine ⟨?_, ?_, ?_, ?_⟩
  · rw [hres, List.map_map]
    refine Eq.trans (List.map_congr_left ?_) (List.enum_map_snd tools)
    intro it _
    exact batchEntryFor_tool exec it.1 it.2
  · rw [hcnt, hres]
    refine congrArg List.length (List.filter_congr ?_)
    intro e he
    obtain ⟨it, _, rfl⟩ := List.mem_map.mp he
    exact batchEntryFor_success exec it.1 it.2
  · rw [hprog, List.map_append, List.map_map]
    have hmap : tools.enum.map
          (Prod.fst ∘ fun it => (it.1 * 100 / tools.length, "Executing: " ++ it.2.name))
        = (List.range tools.length).map (fun i => i * 100 / tools.length) := by
      rw [← List.enum_map_fst tools, List.map_map]
      rfl
    rw [hmap]
    refine List.Pairwise.chain' (List.pairwise_append.mpr ⟨?_, ?_, ?_⟩)
    · refine List.pairwise_map.mpr ((List.pairwise_lt_range tools.length).imp ?_)
      intro a b hab
      exact Nat.div_le_div_right (Nat.mul_le_mul_right 100 (Nat.le_of_lt hab))
    · exact List.pairwise_singleton _ _
    · intro a ha b hb
      obtain ⟨i, hi, rfl⟩ := List.mem_map.mp ha
      have hb100 : b = 100 := by
        rcases List.mem_singleton.mp hb with rfl
        rfl
      subst hb100
      have hn : 0 < tools.length :=
        Nat.pos_of_ne_zero (fun h => by
          rw [h] at hi
          simp [List.range_zero] at hi)
      calc i * 100 / tools.length
          ≤ tools.length * 100 / tools.length :=
            Nat.div_le_div_right
              (Nat.mul_le_mul_right 100
                (Nat.le_of_lt (List.mem_range.mp hi)))
        _ = 100 := Nat.mul_div_cancel_left 100 hn
  · rw [hprog]
    exact List.getLast?_concat _

end ArchAppCenter
